import Mathlib

/-!
Shallow embedding of `src/python/pycascading/decorators.py`.

The module wraps user callables in a `DecoratedFunction` object whose
`decorators` dictionary accumulates execution-contract attributes.  Each
named decorator (`numargs_expected`, `python_list_expected`, `map`, ...) is
a thin call to `_function_decorator` with a fixed attribute-update dict.

Python dictionaries (string keys, insertion-ordered, `dict.update`
overwrites existing keys in place and appends new ones) are embedded as
association lists `Dict α := List (String × PyVal α)` with operations
`setItem` (single-key assignment), `update` (Python `dict.update`) and
`get` (lookup).  The wrapped callable is an opaque value of a type
parameter `α`, so the embedding can store it but cannot invoke or inspect
it.  Object identity (Python returns the very same `DecoratedFunction`
object when one is passed in) is modelled by an `oid` field: the caller
supplies a fresh id used only when a new descriptor is allocated.
-/

namespace pycascading

/-- Embedding of `CascadingBaseOperationWrapper.ConvertInputTuples`. -/
inductive ConvertInputTuples where
  | NONE
  | PYTHON_LIST
  | PYTHON_DICT
deriving DecidableEq, Repr

/-- Embedding of `CascadingRecordProducerWrapper.OutputMethod`. -/
inductive OutputMethod where
  | YIELDS_OR_RETURNS
  | COLLECTS
  | YIELDS
deriving DecidableEq, Repr

/-- Embedding of `CascadingRecordProducerWrapper.OutputType`. -/
inductive OutputType where
  | AUTO
  | PYTHON_LIST
  | TUPLE
deriving DecidableEq, Repr

/-- Embedding of `CascadingRecordProducerWrapper.FlowProcessPassIn`. -/
inductive FlowProcessPassIn where
  | NO
  | YES
deriving DecidableEq, Repr

/-- Values stored in a descriptor's `decorators` dictionary.  `α` is the
opaque type of wrapped callables; `func` stores one, `fieldList` stores a
list of output field names (the `produces` argument of `map`/`reduce`),
`none` is Python `None`. -/
inductive PyVal (α : Type) where
  | str : String → PyVal α
  | int : Int → PyVal α
  | none : PyVal α
  | conv : ConvertInputTuples → PyVal α
  | outMethod : OutputMethod → PyVal α
  | outType : OutputType → PyVal α
  | fpp : FlowProcessPassIn → PyVal α
  | func : α → PyVal α
  | fieldList : List String → PyVal α
deriving DecidableEq, Repr

/-- A Python dict with string keys, as an insertion-ordered association
list with no duplicate keys among those the code ever builds. -/
abbrev Dict (α : Type) : Type := List (String × PyVal α)

/-- The empty dict `{}`. -/
def Dict.empty {α : Type} : Dict α := []

/-- Python `d[k] = v`: replace the value at the first occurrence of `k`
in place, or append the new binding at the end (insertion order). -/
def Dict.setItem {α : Type} : Dict α → String → PyVal α → Dict α
  | [], k, v => [(k, v)]
  | (k', v') :: rest, k, v =>
      if k' = k then (k', v) :: rest else (k', v') :: Dict.setItem rest k v

/-- Python `d.update(u)`: assign every binding of `u`, in `u`'s order,
into `d`, overwriting keys already present in `d`. -/
def Dict.update {α : Type} (d : Dict α) (u : Dict α) : Dict α :=
  List.foldl (fun acc kv => Dict.setItem acc kv.1 kv.2) d u

/-- Python `d.get(k)`: value at the first occurrence of `k`, if any. -/
def Dict.get {α : Type} : Dict α → String → Option (PyVal α)
  | [], _ => Option.none
  | (k', v) :: rest, k => if k' = k then Option.some v else Dict.get rest k

/-- The key list of a dict, in insertion order. -/
def Dict.keys {α : Type} (d : Dict α) : List String :=
  List.map Prod.fst d

/-- Lookup of the LAST occurrence of a key in an (update) list: the value
that survives when the list is assigned binding by binding. -/
def Dict.rget {α : Type} : Dict α → String → Option (PyVal α)
  | [], _ => Option.none
  | (k', v) :: rest, k =>
      match Dict.rget rest k with
      | Option.some w => Option.some w
      | Option.none => if k' = k then Option.some v else Option.none

/-- Left-biased choice on `Option`, written out (the value standing for a
present dict entry wins over the fallback). -/
def optOr {β : Type} : Option β → Option β → Option β
  | Option.some v, _ => Option.some v
  | Option.none, b => b

/-- Embedding of the `DecoratedFunction` object (class defined in
`pycascading.pipe`, not under `src/`).  Modelled from the spec: a
standalone descriptor value carrying an accumulating `decorators`
attribute dict, empty at construction, mutated in place by tagging.
`oid` models Python object identity. -/
structure DecoratedFunction (α : Type) where
  oid : Nat
  decorators : Dict α
deriving DecidableEq

/-- The argument of `fun_decorator`: either a plain callable (the original
function comes next) or an already-decorated function. -/
inductive FunOrDF (α : Type) where
  | callable : α → FunOrDF α
  | df : DecoratedFunction α → FunOrDF α

/-- Lines 72-84 of `decorators.py`: the attribute dict of a freshly
constructed `DecoratedFunction` after the eight default assignments,
starting from the empty dict of the new object. -/
def defaultDecorators {α : Type} (function_or_callabledict : α) : Dict α :=
  Dict.setItem (Dict.setItem (Dict.setItem (Dict.setItem (Dict.setItem (Dict.setItem
    (Dict.setItem (Dict.setItem Dict.empty
      "function" (PyVal.func function_or_callabledict))
      "type" (PyVal.str "none"))
      "input_conversion" (PyVal.conv ConvertInputTuples.NONE))
      "output_method" (PyVal.outMethod OutputMethod.YIELDS_OR_RETURNS))
      "output_type" (PyVal.outType OutputType.AUTO))
      "flow_process_pass_in" (PyVal.fpp FlowProcessPassIn.NO))
      "args" PyVal.none)
      "kwargs" PyVal.none

/-- Lines 66-87: the inner `fun_decorator` closure.  If handed a
`DecoratedFunction`, reuse it (same object: same `oid`); otherwise build a
new descriptor (allocated under the caller-supplied fresh `oid`) with the
default attributes; then `dff.decorators.update(additional_parameters)`
and return `dff`. -/
def fun_decorator {α : Type} (additional_parameters : Dict α) (fresh : Nat) :
    FunOrDF α → DecoratedFunction α
  | FunOrDF.df dff =>
      { dff with decorators := Dict.update dff.decorators additional_parameters }
  | FunOrDF.callable f =>
      { oid := fresh,
        decorators := Dict.update (defaultDecorators f) additional_parameters }

/-- Lines 62-88: `_function_decorator(additional_parameters)` returns
`fun_decorator` closed over the attribute updates. -/
def _function_decorator {α : Type} (additional_parameters : Dict α) :
    Nat → FunOrDF α → DecoratedFunction α :=
  fun_decorator additional_parameters

/-- Lines 91-97: `numargs_expected(num)`; no validation of `num`. -/
def numargs_expected {α : Type} (num : Int) : Nat → FunOrDF α → DecoratedFunction α :=
  _function_decorator [("numargs_expected", PyVal.int num)]

/-- Lines 100-107: `python_list_expected()`. -/
def python_list_expected {α : Type} : Nat → FunOrDF α → DecoratedFunction α :=
  _function_decorator [("input_conversion", PyVal.conv ConvertInputTuples.PYTHON_LIST)]

/-- Lines 110-121: `python_dict_expected()`. -/
def python_dict_expected {α : Type} : Nat → FunOrDF α → DecoratedFunction α :=
  _function_decorator [("input_conversion", PyVal.conv ConvertInputTuples.PYTHON_DICT)]

/-- Lines 124-135: `collects_output()`. -/
def collects_output {α : Type} : Nat → FunOrDF α → DecoratedFunction α :=
  _function_decorator [("output_method", PyVal.outMethod OutputMethod.COLLECTS)]

/-- Lines 138-152: `yields()`. -/
def yields {α : Type} : Nat → FunOrDF α → DecoratedFunction α :=
  _function_decorator [("output_method", PyVal.outMethod OutputMethod.YIELDS)]

/-- Lines 155-162: `produces_python_list()`. -/
def produces_python_list {α : Type} : Nat → FunOrDF α → DecoratedFunction α :=
  _function_decorator [("output_type", PyVal.outType OutputType.PYTHON_LIST)]

/-- Lines 165-172: `produces_tuples()`. -/
def produces_tuples {α : Type} : Nat → FunOrDF α → DecoratedFunction α :=
  _function_decorator [("output_type", PyVal.outType OutputType.TUPLE)]

/-- Lines 175-182: `flowprocess_expected()`. -/
def flowprocess_expected {α : Type} : Nat → FunOrDF α → DecoratedFunction α :=
  _function_decorator [("flow_process_pass_in", PyVal.fpp FlowProcessPassIn.YES)]

/-- Lines 185-196: `filter()`. -/
def filter {α : Type} : Nat → FunOrDF α → DecoratedFunction α :=
  _function_decorator [("type", PyVal.str "filter")]

/-- The Python value passed as the `produces` argument of `map`/`reduce`:
`None` (the default) or a list of output field names. -/
def producesVal {α : Type} : Option (List String) → PyVal α
  | Option.none => PyVal.none
  | Option.some fields => PyVal.fieldList fields

/-- Lines 199-223: `map(produces=None)`.  In Python the argument defaults
to `None`; here a bare `map()` call is written `map Option.none`. -/
def map {α : Type} (produces : Option (List String)) :
    Nat → FunOrDF α → DecoratedFunction α :=
  _function_decorator [("type", PyVal.str "map"), ("produces", producesVal produces)]

/-- Lines 226-248: `reduce(produces=None)`. -/
def reduce {α : Type} (produces : Option (List String)) :
    Nat → FunOrDF α → DecoratedFunction α :=
  _function_decorator [("type", PyVal.str "reduce"), ("produces", producesVal produces)]

/-- Decorator stacking: apply a list of attribute-update dicts, in order,
to an existing descriptor (each step is one `fun_decorator` call on the
already-wrapped value; its fresh-id argument is irrelevant there). -/
def applyTags {α : Type} (tags : List (Dict α)) (d : DecoratedFunction α) :
    DecoratedFunction α :=
  List.foldl (fun dff u => fun_decorator u 0 (FunOrDF.df dff)) d tags

/-- Last-binding lookup across a list of update dicts applied in order:
the value from the latest dict containing the key wins. -/
def rgetAll {α : Type} : List (Dict α) → String → Option (PyVal α)
  | [], _ => Option.none
  | u :: us, k => optOr (rgetAll us k) (Dict.rget u k)

theorem optOr_assoc {β : Type} (a b c : Option β) :
    optOr a (optOr b c) = optOr (optOr a b) c := by
  cases a <;> cases b <;> rfl

theorem Dict.get_setItem {α : Type} (d : Dict α) (k k' : String) (v : PyVal α) :
    (d.setItem k v).get k' = if k = k' then Option.some v else d.get k' := by
  induction d with
  | nil => simp [Dict.setItem, Dict.get]
  | cons kv t ih =>
      obtain ⟨a, b⟩ := kv
      by_cases hak : a = k
      · subst hak
        simp only [Dict.setItem, if_pos rfl, Dict.get]
        by_cases hk : a = k' <;> simp [hk]
      · simp only [Dict.setItem, if_neg hak, Dict.get]
        by_cases hk : a = k'
        · subst hk
          have : ¬ k = a := fun h => hak h.symm
          simp [this]
        · simp [hk, ih]

theorem Dict.get_update {α : Type} (d u : Dict α) (k : String) :
    (d.update u).get k = optOr (u.rget k) (d.get k) := by
  induction u generalizing d with
  | nil => simp [Dict.update, Dict.rget, optOr]
  | cons kv t ih =>
      obtain ⟨a, b⟩ := kv
      show ((d.setItem a b).update t).get k = _
      rw [ih]
      simp only [Dict.rget, Dict.get_setItem]
      cases hr : Dict.rget t k with
      | some w => simp [optOr]
      | none =>
          by_cases hak : a = k <;> simp [hak, optOr]

theorem Dict.rget_eq_none {α : Type} {u : Dict α} {k : String}
    (h : k ∉ u.keys) : u.rget k = Option.none := by
  induction u with
  | nil => rfl
  | cons kv t ih =>
      obtain ⟨a, b⟩ := kv
      simp only [Dict.keys, List.map_cons, List.mem_cons] at h
      push_neg at h
      simp only [Dict.rget, ih h.2]
      have : ¬ a = k := fun hc => h.1 hc.symm
      simp [this]

theorem Dict.rget_of_mem {α : Type} {u : Dict α} {k : String} {v : PyVal α}
    (hnd : u.keys.Nodup) (h : (k, v) ∈ u) : u.rget k = Option.some v := by
  induction u with
  | nil => cases h
  | cons kv t ih =>
      obtain ⟨a, b⟩ := kv
      simp only [Dict.keys, List.map_cons, List.nodup_cons] at hnd
      rcases List.mem_cons.mp h with hhd | htl
      · have hk : k = a := congrArg Prod.fst hhd
        have hv : v = b := congrArg Prod.snd hhd
        subst hk; subst hv
        have hnm : k ∉ Dict.keys t := by
          simpa [Dict.keys] using hnd.1
        simp [Dict.rget, Dict.rget_eq_none hnm]
      · simp [Dict.rget, ih hnd.2 htl]

theorem Dict.setItem_of_get_eq {α : Type} {d : Dict α} {k : String} {v : PyVal α}
    (h : d.get k = Option.some v) : d.setItem k v = d := by
  induction d with
  | nil => simp [Dict.get] at h
  | cons kv t ih =>
      obtain ⟨a, b⟩ := kv
      by_cases hak : a = k
      · subst hak
        have hb : b = v := by
          simpa [Dict.get] using h
        subst hb
        simp [Dict.setItem]
      · simp only [Dict.get, if_neg hak] at h
        simp [Dict.setItem, hak, ih h]

theorem Dict.update_self_of_get {α : Type} {d u : Dict α}
    (h : ∀ p ∈ u, d.get p.1 = Option.some p.2) : d.update u = d := by
  induction u with
  | nil => rfl
  | cons kv t ih =>
      obtain ⟨a, b⟩ := kv
      show (d.setItem a b).update t = d
      have hab : d.get a = Option.some b := h (a, b) (List.mem_cons_self _ _)
      rw [Dict.setItem_of_get_eq hab]
      exact ih (fun p hp => h p (List.mem_cons_of_mem _ hp))

theorem Dict.update_update_self {α : Type} (d u : Dict α)
    (hnd : u.keys.Nodup) : (d.update u).update u = d.update u := by
  refine Dict.update_self_of_get (fun p hp => ?_)
  rw [Dict.get_update]
  obtain ⟨k, v⟩ := p
  rw [Dict.rget_of_mem hnd hp]
  rfl

theorem Dict.get_foldl_update {α : Type} (us : List (Dict α)) (d : Dict α)
    (k : String) :
    (List.foldl Dict.update d us).get k = optOr (rgetAll us k) (d.get k) := by
  induction us generalizing d with
  | nil => simp [rgetAll, optOr]
  | cons u t ih =>
      simp only [List.foldl_cons, rgetAll]
      rw [ih, Dict.get_update, optOr_assoc]

theorem applyTags_decorators {α : Type} (tags : List (Dict α))
    (d : DecoratedFunction α) :
    (applyTags tags d).decorators = List.foldl Dict.update d.decorators tags := by
  induction tags generalizing d with
  | nil => rfl
  | cons u t ih =>
      show (applyTags t (fun_decorator u 0 (FunOrDF.df d))).decorators = _
      rw [ih]
      rfl

theorem applyTags_oid {α : Type} (tags : List (Dict α)) (d : DecoratedFunction α) :
    (applyTags tags d).oid = d.oid := by
  induction tags generalizing d with
  | nil => rfl
  | cons u t ih =>
      show (applyTags t (fun_decorator u 0 (FunOrDF.df d))).oid = _
      rw [ih]
      rfl

theorem defaultDecorators_eq {α : Type} (f : α) :
    defaultDecorators f =
      [("function", PyVal.func f),
       ("type", PyVal.str "none"),
       ("input_conversion", PyVal.conv ConvertInputTuples.NONE),
       ("output_method", PyVal.outMethod OutputMethod.YIELDS_OR_RETURNS),
       ("output_type", PyVal.outType OutputType.AUTO),
       ("flow_process_pass_in", PyVal.fpp FlowProcessPassIn.NO),
       ("args", PyVal.none),
       ("kwargs", PyVal.none)] := by
  rfl

/-- Relabelling of the opaque callables stored in a value.  Tagging code
that never invokes or inspects the callable must commute with it. -/
def PyVal.mapFun {α β : Type} (h : α → β) : PyVal α → PyVal β
  | PyVal.str s => PyVal.str s
  | PyVal.int n => PyVal.int n
  | PyVal.none => PyVal.none
  | PyVal.conv c => PyVal.conv c
  | PyVal.outMethod m => PyVal.outMethod m
  | PyVal.outType t => PyVal.outType t
  | PyVal.fpp p => PyVal.fpp p
  | PyVal.func f => PyVal.func (h f)
  | PyVal.fieldList l => PyVal.fieldList l

/-- Relabelling of callables throughout a dict (keys untouched). -/
def Dict.mapFun {α β : Type} (h : α → β) (d : Dict α) : Dict β :=
  List.map (fun kv => (kv.1, PyVal.mapFun h kv.2)) d

/-- Relabelling of callables in a descriptor (identity untouched). -/
def DecoratedFunction.mapFun {α β : Type} (h : α → β)
    (d : DecoratedFunction α) : DecoratedFunction β :=
  { oid := d.oid, decorators := Dict.mapFun h d.decorators }

/-- Relabelling of callables in a decorator argument. -/
def FunOrDF.mapFun {α β : Type} (h : α → β) : FunOrDF α → FunOrDF β
  | FunOrDF.callable f => FunOrDF.callable (h f)
  | FunOrDF.df d => FunOrDF.df (DecoratedFunction.mapFun h d)

theorem Dict.mapFun_setItem {α β : Type} (h : α → β) (d : Dict α)
    (k : String) (v : PyVal α) :
    Dict.mapFun h (Dict.setItem d k v) =
      Dict.setItem (Dict.mapFun h d) k (PyVal.mapFun h v) := by
  induction d with
  | nil => rfl
  | cons kv t ih =>
      obtain ⟨a, b⟩ := kv
      by_cases hak : a = k
      · simp [Dict.setItem, Dict.mapFun, hak]
      · simp only [Dict.setItem, if_neg hak, Dict.mapFun, List.map_cons]
        exact congrArg _ ih

theorem Dict.mapFun_update {α β : Type} (h : α → β) (d u : Dict α) :
    Dict.mapFun h (Dict.update d u) =
      Dict.update (Dict.mapFun h d) (Dict.mapFun h u) := by
  induction u generalizing d with
  | nil => rfl
  | cons kv t ih =>
      obtain ⟨a, b⟩ := kv
      show Dict.mapFun h (Dict.update (Dict.setItem d a b) t) = _
      rw [ih, Dict.mapFun_setItem]
      rfl

theorem defaultDecorators_mapFun {α β : Type} (h : α → β) (f : α) :
    Dict.mapFun h (defaultDecorators f) = defaultDecorators (h f) := by
  rfl

theorem fun_decorator_mapFun {α β : Type} (h : α → β) (u : Dict α)
    (fresh : Nat) (x : FunOrDF α) :
    fun_decorator (Dict.mapFun h u) fresh (FunOrDF.mapFun h x) =
      DecoratedFunction.mapFun h (fun_decorator u fresh x) := by
  cases x with
  | callable f =>
      show DecoratedFunction.mk fresh
          (Dict.update (defaultDecorators (h f)) (Dict.mapFun h u)) = _
      rw [show DecoratedFunction.mapFun h (fun_decorator u fresh (FunOrDF.callable f)) =
        DecoratedFunction.mk fresh
          (Dict.mapFun h (Dict.update (defaultDecorators f) u)) from rfl]
      rw [Dict.mapFun_update, defaultDecorators_mapFun]
  | df d =>
      show DecoratedFunction.mk d.oid
          (Dict.update (Dict.mapFun h d.decorators) (Dict.mapFun h u)) = _
      rw [show DecoratedFunction.mapFun h (fun_decorator u fresh (FunOrDF.df d)) =
        DecoratedFunction.mk d.oid
          (Dict.mapFun h (Dict.update d.decorators u)) from rfl]
      rw [Dict.mapFun_update]

/-- Claim C1: for every plain callable and every finite sequence of tag
applications `T1..Tn` (here a first tag `t` followed by the rest `ts`),
the final descriptor's attribute dict equals the in-order fold of all the
tags' attribute-update dicts over the freshly created descriptor's
defaults, and on every key the latest tag mentioning the key wins, falling
back to the default value (later values overwrite earlier ones on shared
keys). -/
theorem C1_tag_sequence_union {α : Type} (t : Dict α) (ts : List (Dict α))
    (f : α) (fresh : Nat) :
    (applyTags ts (fun_decorator t fresh (FunOrDF.callable f))).decorators =
        List.foldl Dict.update (defaultDecorators f) (t :: ts) ∧
    ∀ k, Dict.get
        (applyTags ts (fun_decorator t fresh (FunOrDF.callable f))).decorators k =
        optOr (rgetAll (t :: ts) k) (Dict.get (defaultDecorators f) k) := by
  constructor
  · rw [applyTags_decorators]
    rfl
  · intro k
    rw [applyTags_decorators]
    show Dict.get
        (List.foldl Dict.update (Dict.update (defaultDecorators f) t) ts) k = _
    rw [Dict.get_foldl_update, Dict.get_update, optOr_assoc]
    rfl

/-- Claim C2: applying any tag to a plain callable constructs a new
descriptor (fresh identity) from the default attribute dict, and that
dict — before the tag's own updates are merged in — holds the documented
defaults: `type` (role) `'none'`, `input_conversion` (input shape) `NONE`,
`output_method` (output mode) `YIELDS_OR_RETURNS` (auto),
`output_type` (output shape) `AUTO`, `flow_process_pass_in`
(receives context) `NO`, no `numargs_expected` (expected arity) entry, no
`produces` (declared output fields) entry, and the callable stored under
`function`. -/
theorem C2_new_descriptor_defaults {α : Type} (u : Dict α) (f : α)
    (fresh : Nat) :
    fun_decorator u fresh (FunOrDF.callable f) =
      DecoratedFunction.mk fresh (Dict.update (defaultDecorators f) u) ∧
    Dict.get (defaultDecorators f) "type" = Option.some (PyVal.str "none") ∧
    Dict.get (defaultDecorators f) "input_conversion" =
      Option.some (PyVal.conv ConvertInputTuples.NONE) ∧
    Dict.get (defaultDecorators f) "output_method" =
      Option.some (PyVal.outMethod OutputMethod.YIELDS_OR_RETURNS) ∧
    Dict.get (defaultDecorators f) "output_type" =
      Option.some (PyVal.outType OutputType.AUTO) ∧
    Dict.get (defaultDecorators f) "flow_process_pass_in" =
      Option.some (PyVal.fpp FlowProcessPassIn.NO) ∧
    Dict.get (defaultDecorators f) "numargs_expected" = Option.none ∧
    Dict.get (defaultDecorators f) "produces" = Option.none ∧
    Dict.get (defaultDecorators f) "function" =
      Option.some (PyVal.func f) :=
  ⟨rfl, rfl, rfl, rfl, rfl, rfl, rfl, rfl, rfl⟩

/-- Claim C3: a tag applied to an existing descriptor returns the very
same object (same identity, its dict updated in place), and every
attribute key not present in the tag's update dict keeps the value it had
before the application. -/
theorem C3_in_place_mutation_frame {α : Type} (u : Dict α)
    (d : DecoratedFunction α) (fresh : Nat) :
    (fun_decorator u fresh (FunOrDF.df d)).oid = d.oid ∧
    (fun_decorator u fresh (FunOrDF.df d)).decorators =
      Dict.update d.decorators u ∧
    ∀ k, k ∉ Dict.keys u →
      Dict.get (fun_decorator u fresh (FunOrDF.df d)).decorators k =
        Dict.get d.decorators k := by
  refine ⟨rfl, rfl, fun k hk => ?_⟩
  show Dict.get (Dict.update d.decorators u) k = _
  rw [Dict.get_update, Dict.rget_eq_none hk]
  rfl

/-- Witness for C3 at a concrete input: tagging a concrete descriptor with
`filter`'s update dict keeps identity and the untouched `produces` key. -/
theorem C3_in_place_mutation_frame_witness :
    Dict.get (fun_decorator [("type", PyVal.str "filter")] 7
        (FunOrDF.df (DecoratedFunction.mk 3
          (defaultDecorators (0 : Nat))))).decorators "produces" =
      Dict.get (defaultDecorators (0 : Nat)) "produces" :=
  (C3_in_place_mutation_frame [("type", PyVal.str "filter")]
      (DecoratedFunction.mk 3 (defaultDecorators (0 : Nat))) 7).2.2
    "produces" (by decide)

/-- Claim C4: `python_list_expected` followed by `python_dict_expected`
leaves `input_conversion` at `PYTHON_DICT` — the second write to the
shared `input_conversion` key wins, for every starting input (plain
callable or descriptor). -/
theorem C4_list_then_dict_input {α : Type} (x : FunOrDF α) (n1 n2 : Nat) :
    Dict.get (python_dict_expected n2
        (FunOrDF.df (python_list_expected n1 x))).decorators
        "input_conversion" =
      Option.some (PyVal.conv ConvertInputTuples.PYTHON_DICT) := by
  rw [show (python_dict_expected n2
        (FunOrDF.df (python_list_expected n1 x))).decorators =
      Dict.update (python_list_expected n1 x).decorators
        [("input_conversion",
          PyVal.conv ConvertInputTuples.PYTHON_DICT)] from rfl]
  rw [Dict.get_update]
  rfl

/-- Claim C5: `numargs_expected` with ANY integer argument — negative
included — is a plain `_function_decorator` call that stores the value
under the `numargs_expected` key; the embedding is total and performs no
validation of the value or of semantic conflicts at tagging time, exactly
as the source, which checks nothing and can raise nothing. -/
theorem C5_no_validation_at_tagging {α : Type} (n : Int) (x : FunOrDF α)
    (fresh : Nat) :
    numargs_expected n fresh x =
      fun_decorator [("numargs_expected", PyVal.int n)] fresh x ∧
    Dict.get (numargs_expected n fresh x).decorators "numargs_expected" =
      Option.some (PyVal.int n) := by
  refine ⟨rfl, ?_⟩
  cases x with
  | callable f =>
      rw [show (numargs_expected n fresh (FunOrDF.callable f)).decorators =
        Dict.update (defaultDecorators f)
          [("numargs_expected", PyVal.int n)] from rfl]
      rw [Dict.get_update]
      rfl
  | df d =>
      rw [show (numargs_expected n fresh (FunOrDF.df d)).decorators =
        Dict.update d.decorators
          [("numargs_expected", PyVal.int n)] from rfl]
      rw [Dict.get_update]
      rfl

/-- Claim C6: tagging never invokes, inspects or otherwise executes the
wrapped callable.  In the embedding callables are opaque values of a type
parameter, so this is expressed as (1) naturality: relabelling the
callables commutes with every `fun_decorator` application — the result
depends on the callable only as stored data, never through its behavior —
and (2) when a plain callable is wrapped, it is only stored under the
`function` key (surviving unless the tag itself writes that key). -/
theorem C6_callable_only_stored {α β : Type} (h : α → β) (u : Dict α)
    (fresh : Nat) :
    (∀ x : FunOrDF α,
      fun_decorator (Dict.mapFun h u) fresh (FunOrDF.mapFun h x) =
        DecoratedFunction.mapFun h (fun_decorator u fresh x)) ∧
    (∀ f : α,
      Dict.get (fun_decorator u fresh (FunOrDF.callable f)).decorators
          "function" =
        optOr (Dict.rget u "function") (Option.some (PyVal.func f))) := by
  constructor
  · intro x
    exact fun_decorator_mapFun h u fresh x
  · intro f
    rw [show (fun_decorator u fresh (FunOrDF.callable f)).decorators =
      Dict.update (defaultDecorators f) u from rfl]
    rw [Dict.get_update]
    rfl

/-- Claim C7: applying the same tag twice in succession yields exactly the
same attribute dict as applying it once (for tags whose update dict has no
duplicate keys, as every decorator of the module does). -/
theorem C7_tag_idempotent {α : Type} (u : Dict α) (x : FunOrDF α)
    (fresh1 fresh2 : Nat) (hnd : (Dict.keys u).Nodup) :
    (fun_decorator u fresh2
        (FunOrDF.df (fun_decorator u fresh1 x))).decorators =
      (fun_decorator u fresh1 x).decorators := by
  rw [show (fun_decorator u fresh2
      (FunOrDF.df (fun_decorator u fresh1 x))).decorators =
    Dict.update (fun_decorator u fresh1 x).decorators u from rfl]
  cases x with
  | callable f => exact Dict.update_update_self (defaultDecorators f) u hnd
  | df d => exact Dict.update_update_self d.decorators u hnd

/-- Witness for C7 at a concrete input: `map`'s update dict applied twice
to a plain callable. -/
theorem C7_tag_idempotent_witness :
    (fun_decorator [("type", PyVal.str "map"), ("produces", PyVal.none)] 5
        (FunOrDF.df (fun_decorator
          [("type", PyVal.str "map"), ("produces", PyVal.none)] 4
          (FunOrDF.callable (0 : Nat))))).decorators =
      (fun_decorator [("type", PyVal.str "map"), ("produces", PyVal.none)] 4
        (FunOrDF.callable (0 : Nat))).decorators :=
  C7_tag_idempotent [("type", PyVal.str "map"), ("produces", PyVal.none)]
    (FunOrDF.callable 0) 4 5 (by decide)

/-- Claim C8: two tags whose update dicts touch disjoint key sets commute:
applied to the same descriptor in either order, every attribute key reads
the same value (the attribute mapping — what Python dict equality
compares — is identical; only insertion order of fresh keys may differ). -/
theorem C8_disjoint_tags_commute {α : Type} (u1 u2 : Dict α)
    (d : DecoratedFunction α) (f1 f2 f3 f4 : Nat)
    (hdisj : ∀ k ∈ Dict.keys u1, k ∉ Dict.keys u2) :
    ∀ k, Dict.get (fun_decorator u2 f2
        (FunOrDF.df (fun_decorator u1 f1 (FunOrDF.df d)))).decorators k =
      Dict.get (fun_decorator u1 f4
        (FunOrDF.df (fun_decorator u2 f3 (FunOrDF.df d)))).decorators k := by
  intro k
  rw [show (fun_decorator u2 f2
      (FunOrDF.df (fun_decorator u1 f1 (FunOrDF.df d)))).decorators =
    Dict.update (Dict.update d.decorators u1) u2 from rfl]
  rw [show (fun_decorator u1 f4
      (FunOrDF.df (fun_decorator u2 f3 (FunOrDF.df d)))).decorators =
    Dict.update (Dict.update d.decorators u2) u1 from rfl]
  rw [Dict.get_update, Dict.get_update, Dict.get_update, Dict.get_update]
  by_cases h1 : k ∈ Dict.keys u1
  · rw [Dict.rget_eq_none (hdisj k h1)]
    simp [optOr]
  · rw [Dict.rget_eq_none h1]
    simp [optOr]

/-- Witness for C8 at a concrete input: `numargs_expected(2)` and
`filter()` touch disjoint keys and commute on the `type` key. -/
theorem C8_disjoint_tags_commute_witness :
    Dict.get (fun_decorator [("type", PyVal.str "filter")] 2
        (FunOrDF.df (fun_decorator [("numargs_expected", PyVal.int 2)] 1
          (FunOrDF.df (DecoratedFunction.mk 0
            (defaultDecorators (0 : Nat))))))).decorators "type" =
      Dict.get (fun_decorator [("numargs_expected", PyVal.int 2)] 4
        (FunOrDF.df (fun_decorator [("type", PyVal.str "filter")] 3
          (FunOrDF.df (DecoratedFunction.mk 0
            (defaultDecorators (0 : Nat))))))).decorators "type" :=
  C8_disjoint_tags_commute [("numargs_expected", PyVal.int 2)]
    [("type", PyVal.str "filter")]
    (DecoratedFunction.mk 0 (defaultDecorators (0 : Nat))) 1 2 3 4
    (by decide) "type"

/-- Claim C9: `map(["a", "b"])` followed by `numargs_expected(2)` on a
plain function `f` yields a descriptor with `type` `'map'`, `produces`
`["a", "b"]`, `numargs_expected` `2`, and the very callable `f` stored
under `function`. -/
theorem C9_map_then_numargs {α : Type} (f : α) (fr1 fr2 : Nat) :
    Dict.get (numargs_expected 2 fr2 (FunOrDF.df (map
        (Option.some ["a", "b"]) fr1 (FunOrDF.callable f)))).decorators
        "type" = Option.some (PyVal.str "map") ∧
    Dict.get (numargs_expected 2 fr2 (FunOrDF.df (map
        (Option.some ["a", "b"]) fr1 (FunOrDF.callable f)))).decorators
        "produces" = Option.some (PyVal.fieldList ["a", "b"]) ∧
    Dict.get (numargs_expected 2 fr2 (FunOrDF.df (map
        (Option.some ["a", "b"]) fr1 (FunOrDF.callable f)))).decorators
        "numargs_expected" = Option.some (PyVal.int 2) ∧
    Dict.get (numargs_expected 2 fr2 (FunOrDF.df (map
        (Option.some ["a", "b"]) fr1 (FunOrDF.callable f)))).decorators
        "function" = Option.some (PyVal.func f) :=
  ⟨rfl, rfl, rfl, rfl⟩

/-- Claim C10: `map` and `reduce` unconditionally write the `produces`
key — called with no output fields (Python default `None`) they overwrite
any previously declared output fields with `None` — while `filter` writes
only the `type` key and leaves a previously set `produces` value in
place. -/
theorem C10_produces_overwrite_vs_filter {α : Type}
    (d : DecoratedFunction α) (fr1 fr2 fr3 : Nat) :
    Dict.get (map Option.none fr1 (FunOrDF.df d)).decorators "produces" =
      Option.some PyVal.none ∧
    Dict.get (reduce Option.none fr2 (FunOrDF.df d)).decorators "produces" =
      Option.some PyVal.none ∧
    Dict.get (filter fr3 (FunOrDF.df d)).decorators "produces" =
      Dict.get d.decorators "produces" ∧
    Dict.get (filter fr3 (FunOrDF.df d)).decorators "type" =
      Option.some (PyVal.str "filter") := by
  refine ⟨?_, ?_, ?_, ?_⟩
  · rw [show (map Option.none fr1 (FunOrDF.df d)).decorators =
      Dict.update d.decorators
        [("type", PyVal.str "map"), ("produces", PyVal.none)] from rfl]
    rw [Dict.get_update]
    rfl
  · rw [show (reduce Option.none fr2 (FunOrDF.df d)).decorators =
      Dict.update d.decorators
        [("type", PyVal.str "reduce"), ("produces", PyVal.none)] from rfl]
    rw [Dict.get_update]
    rfl
  · rw [show (filter fr3 (FunOrDF.df d)).decorators =
      Dict.update d.decorators [("type", PyVal.str "filter")] from rfl]
    rw [Dict.get_update]
    rfl
  · rw [show (filter fr3 (FunOrDF.df d)).decorators =
      Dict.update d.decorators [("type", PyVal.str "filter")] from rfl]
    rw [Dict.get_update]
    rfl

end pycascading
